import Mathlib

/-!
# Verification of the GLUE feature encoder

Shallow embedding of `nemo/collections/nlp/data/datasets/glue_benchmark_dataset.py`:
the batch feature encoder `convert_examples_to_features`, its pair-truncation
helper `_truncate_seq_pair`, and the per-example encoding pipeline
(tokenize, reserve special-token slots, truncate, assemble, pad, validate,
resolve label).

Modelling conventions:
* Python lists become Lean `List`s; tokens and texts are `String`s.
* A configured optional special token (passed as `None` to disable) is an
  `Option String`; `if token:` truthiness is modelled as presence (`some`),
  since markers are nonempty strings.  For `example.text_b`, where the empty
  string genuinely occurs, full Python truthiness (`none` or `""` are falsy)
  is modelled.
* Python exceptions (`ValueError`, `KeyError`, `IndexError` from `pop` on an
  empty list) become an `Except EncError` result; an exception anywhere in
  the per-example pipeline propagates out of the batch loop.
* The external tokenizer (`text_to_tokens`, `tokens_to_ids`) is a record of
  functions; `tokens_to_ids` maps each token symbol to its integer id.
* `np.float32(example.label)` in regression mode is abstracted: the raw label
  string is stored (no claim depends on the floating-point value).
-/

namespace GlueEncoding

/-- One labelled text example (guid, primary text, optional secondary text,
label string), mirroring `InputExample` as consumed by the encoder. -/
structure Example where
  guid : String
  text_a : String
  text_b : Option String
  label : String
deriving DecidableEq

/-- The keyword configuration of `convert_examples_to_features`
(lines 58-69 of the source). -/
structure Config where
  bos_token : Option String
  eos_token : Option String
  pad_token : String
  cls_token : Option String
  sep_token_extra : Option String
  cls_token_at_end : Bool
  cls_token_segment_id : Int
  pad_token_segment_id : Int
  pad_on_left : Bool
  mask_padding_with_zero : Bool
  sequence_a_segment_id : Int
  sequence_b_segment_id : Int
deriving DecidableEq

/-- The Python default keyword arguments: `eos_token='[SEP]'`,
`pad_token='[PAD]'`, `cls_token='[CLS]'`, everything else `None`/`False`/
the BERT segment ids. -/
def defaultConfig : Config where
  bos_token := none
  eos_token := some "[SEP]"
  pad_token := "[PAD]"
  cls_token := some "[CLS]"
  sep_token_extra := none
  cls_token_at_end := false
  cls_token_segment_id := 0
  pad_token_segment_id := 0
  pad_on_left := false
  mask_padding_with_zero := true
  sequence_a_segment_id := 0
  sequence_b_segment_id := 1

/-- The external tokenizer interface: `text_to_tokens` and, for
`tokens_to_ids`, the per-token id map (applied elementwise to a token list). -/
structure Tokenizer where
  textToTokens : String → List String
  tokenToId : String → Nat

/-- The Python exceptions the encoder can raise, by site:
`IndexError` from `pop()` on an empty list inside `_truncate_seq_pair`,
the three `ValueError`s of the length validation, `KeyError` on a label
missing from `label_map`, and `KeyError(output_mode)` for an unsupported
output mode. -/
inductive EncError where
  | truncationFailure : EncError
  | lengthError : String → EncError
  | unknownLabel : String → EncError
  | unsupportedMode : String → EncError
deriving DecidableEq

/-- The resolved `label_id`: an integer class index in classification mode,
or (abstracted) the raw label string in regression mode. -/
inductive LabelValue where
  | classLabel : Nat → LabelValue
  | regLabel : String → LabelValue
deriving DecidableEq

/-- `InputFeatures`: one encoded feature record. -/
structure InputFeatures where
  input_ids : List Nat
  input_mask : List Nat
  segment_ids : List Int
  label_id : LabelValue
deriving DecidableEq

/-- Python truthiness of the optional second text: `None` and `""` are falsy. -/
def strOptTruthy : Option String → Bool
  | none => false
  | some s => s ≠ ""

/-- Python truthiness of the optional second token list (`if tokens_b:`):
`None` and the empty list are falsy. -/
def listOptTruthy {α : Type} : Option (List α) → Bool
  | none => false
  | some l => !l.isEmpty

/-- An optional token as the list segment it contributes: `[t]` when present,
`[]` when absent (the two arms of each `if <token>:` insertion). -/
def optToList : Option String → List String
  | some t => [t]
  | none => []

/-! ## `_truncate_seq_pair` (source lines 203-218)

The `while True` loop pops one trailing token per iteration from whichever
list is strictly longer (from `tokens_b` on ties), until the total length
fits `max_length`.  Each iteration removes exactly one element, so the
initial total length bounds the iteration count; `truncAux` recurses on that
bound as fuel.  When both lists are empty and the total still exceeds
`max_length` (only possible for a negative budget), the fuel is exhausted at
exactly the point Python executes `tokens_b.pop()` on an empty list and
raises `IndexError`; this is the `none` result. -/

def truncAux {α : Type} : Nat → List α → List α → Int → Option (List α × List α)
  | 0, a, b, m =>
      if ((a.length + b.length : Nat) : Int) ≤ m then some (a, b) else none
  | fuel + 1, a, b, m =>
      if ((a.length + b.length : Nat) : Int) ≤ m then some (a, b)
      else if b.length < a.length then truncAux fuel a.dropLast b m
      else truncAux fuel a b.dropLast m

/-- `_truncate_seq_pair(tokens_a, tokens_b, max_length)`, returning the two
trimmed lists (`none` = the `IndexError` of a pop on an empty list). -/
def truncateSeqPair {α : Type} (tokens_a tokens_b : List α) (max_length : Int) :
    Option (List α × List α) :=
  truncAux (tokens_a.length + tokens_b.length) tokens_a tokens_b max_length

/-! ## Reserved special-token counts (source lines 115-118 and 121-123) -/

/-- The two-text reserved count (lines 115-118): `2 if eos_token else 0`,
`+= 1 if sep_token_extra`, `+= 2 if bos_token`, `+= 1 if cls_token`. -/
def specialTokensCountPair (cfg : Config) : Nat :=
  (if cfg.eos_token.isSome then 2 else 0)
  + (if cfg.sep_token_extra.isSome then 1 else 0)
  + (if cfg.bos_token.isSome then 2 else 0)
  + (if cfg.cls_token.isSome then 1 else 0)

/-- The one-text reserved count (lines 121-123): `1 if eos_token else 0`,
`+= 1 if sep_token_extra`, `+= 1 if bos_token` — and no `cls_token` term. -/
def specialTokensCountSingle (cfg : Config) : Nat :=
  (if cfg.eos_token.isSome then 1 else 0)
  + (if cfg.sep_token_extra.isSome then 1 else 0)
  + (if cfg.bos_token.isSome then 1 else 0)

/-- The reserved count as claim C2 words it: +2 eos if two texts else +1;
+1 sep_token_extra only with two texts; +2 bos if two texts else +1;
+1 cls in both branches. -/
def claimedReserved (cfg : Config) (twoTexts : Bool) : Nat :=
  (if cfg.eos_token.isSome then (if twoTexts then 2 else 1) else 0)
  + (if cfg.sep_token_extra.isSome && twoTexts then 1 else 0)
  + (if cfg.bos_token.isSome then (if twoTexts then 2 else 1) else 0)
  + (if cfg.cls_token.isSome then 1 else 0)

/-- Python list slicing `l[:k]` for an `int` bound `k`: a nonnegative bound
keeps the first `k` elements; a negative bound keeps `len(l) + k` elements
(clamped at zero).  Used at line 125. -/
def pySliceTo {α : Type} (l : List α) (k : Int) : List α :=
  if k < 0 then l.take ((l.length : Int) + k).toNat else l.take k.toNat

/-! ## Assembly of tokens and segment ids (source lines 126-157) -/

/-- Lines 126-148: build `tokens` and the parallel `segment_ids` before the
cls step.  `optToList` stands for each `if <token>:` guarded insertion, and
`listOptTruthy tokens_b` for the `if tokens_b:` guards (lines 135, 140). -/
def assembleBody (cfg : Config) (tokens_a : List String)
    (tokens_b : Option (List String)) : List String × List Int :=
  let tokens := optToList cfg.bos_token ++ tokens_a
  let tokens := tokens ++ optToList cfg.eos_token
  let segment_ids : List Int := List.replicate tokens.length cfg.sequence_a_segment_id
  let ts :=
    if listOptTruthy tokens_b && cfg.sep_token_extra.isSome then
      (tokens ++ optToList cfg.sep_token_extra, segment_ids ++ [cfg.sequence_a_segment_id])
    else (tokens, segment_ids)
  if listOptTruthy tokens_b then
    let tb := tokens_b.getD []
    let ts :=
      if cfg.bos_token.isSome then
        (ts.1 ++ optToList cfg.bos_token, ts.2 ++ [cfg.sequence_b_segment_id])
      else ts
    let ts := (ts.1 ++ tb, ts.2 ++ List.replicate tb.length cfg.sequence_b_segment_id)
    if cfg.eos_token.isSome then
      (ts.1 ++ optToList cfg.eos_token, ts.2 ++ [cfg.sequence_b_segment_id])
    else ts
  else ts

/-- Lines 150-157: prepend the cls token (default) or append it
(`cls_token_at_end`), with `cls_token_segment_id`. -/
def addCls (cfg : Config) (p : List String × List Int) : List String × List Int :=
  match cfg.cls_token with
  | some c =>
      if cfg.cls_token_at_end then (p.1 ++ [c], p.2 ++ [cfg.cls_token_segment_id])
      else (c :: p.1, cfg.cls_token_segment_id :: p.2)
  | none => p

/-- The full assembly, lines 126-157. -/
def assemble (cfg : Config) (tokens_a : List String)
    (tokens_b : Option (List String)) : List String × List Int :=
  addCls cfg (assembleBody cfg tokens_a tokens_b)

/-- The assembly order as claim C5 words it: optional bos + tokens_a +
optional eos, all with `sequence_a_segment_id`; then, only when two texts
are present, optional sep_token_extra (segment a), optional bos, tokens_b
and optional eos (all segment b); finally cls at the very front, or at the
very end when `cls_token_at_end`, with `cls_token_segment_id`. -/
def assembledSpec (cfg : Config) (tokens_a : List String)
    (tokens_b : Option (List String)) : List String × List Int :=
  let twoTexts := listOptTruthy tokens_b
  let tb := tokens_b.getD []
  let aToks := optToList cfg.bos_token ++ tokens_a ++ optToList cfg.eos_token
  let aSegs : List Int := List.replicate aToks.length cfg.sequence_a_segment_id
  let sepToks := if twoTexts then optToList cfg.sep_token_extra else []
  let sepSegs : List Int := List.replicate sepToks.length cfg.sequence_a_segment_id
  let bToks := if twoTexts then optToList cfg.bos_token ++ tb ++ optToList cfg.eos_token else []
  let bSegs : List Int := List.replicate bToks.length cfg.sequence_b_segment_id
  let core := (aToks ++ sepToks ++ bToks, aSegs ++ sepSegs ++ bSegs)
  match cfg.cls_token with
  | some c =>
      if cfg.cls_token_at_end then (core.1 ++ [c], core.2 ++ [cfg.cls_token_segment_id])
      else (c :: core.1, cfg.cls_token_segment_id :: core.2)
  | none => core

/-! ## Padding and mask (source lines 160-174) -/

/-- The mask value written for real tokens (line 162). -/
def realMaskVal (cfg : Config) : Nat :=
  if cfg.mask_padding_with_zero then 1 else 0

/-- The mask value written for padding slots (lines 169, 173). -/
def padMaskVal (cfg : Config) : Nat :=
  if cfg.mask_padding_with_zero then 0 else 1

/-- Lines 167-174: extend a sequence with `padLen` copies of the padding
value, on the left when `pad_on_left` else on the right. -/
def padList {α : Type} (pad_on_left : Bool) (padVal : α) (padLen : Nat)
    (l : List α) : List α :=
  if pad_on_left then List.replicate padLen padVal ++ l
  else l ++ List.replicate padLen padVal

/-! ## Label resolution (source lines 102 and 181-186) -/

/-- `{label: i for i, label in enumerate(label_list)}` followed by
`label_map[s]`: insertion in list order with later duplicates overwriting,
`none` for a missing key (Python `KeyError`). -/
def labelMapLookupAux : Nat → List String → String → Option Nat → Option Nat
  | _, [], _, acc => acc
  | i, l :: ls, s, acc =>
      labelMapLookupAux (i + 1) ls s (if l = s then some i else acc)

/-- The `label_map` lookup of line 182. -/
def labelMapLookup (label_list : List String) (s : String) : Option Nat :=
  labelMapLookupAux 0 label_list s none

/-- Lines 181-186: classification looks the label up in `label_map`
(`KeyError` when absent); regression keeps the label (numeric parse
abstracted); any other mode raises `KeyError(output_mode)`. -/
def resolveLabelId (output_mode : String) (label_list : List String)
    (label : String) : Except EncError LabelValue :=
  if output_mode = "classification" then
    match labelMapLookup label_list label with
    | some i => Except.ok (LabelValue.classLabel i)
    | none => Except.error (EncError.unknownLabel label)
  else if output_mode = "regression" then
    Except.ok (LabelValue.regLabel label)
  else
    Except.error (EncError.unsupportedMode output_mode)

/-! ## The per-example pipeline (source lines 109-199) -/

/-- Lines 126-199 for one example, given the (possibly truncated) token
sequences: assemble, convert to ids, build the mask, pad, validate the three
lengths, resolve the label, and emit the record. -/
def encodeTail (tokenizer : Tokenizer) (cfg : Config) (label_list : List String)
    (max_seq_length : Nat) (output_mode : String) (ex : Example)
    (ta : List String) (tb : Option (List String)) : Except EncError InputFeatures :=
  let p := assemble cfg ta tb
  let input_ids := p.1.map tokenizer.tokenToId
  let segment_ids := p.2
  let input_mask := List.replicate input_ids.length (realMaskVal cfg)
  let padding_length := ((max_seq_length : Int) - input_ids.length).toNat
  let pad_token_id := tokenizer.tokenToId cfg.pad_token
  let input_ids := padList cfg.pad_on_left pad_token_id padding_length input_ids
  let input_mask := padList cfg.pad_on_left (padMaskVal cfg) padding_length input_mask
  let segment_ids := padList cfg.pad_on_left cfg.pad_token_segment_id padding_length segment_ids
  if input_ids.length ≠ max_seq_length then
    Except.error (EncError.lengthError "input_ids")
  else if input_mask.length ≠ max_seq_length then
    Except.error (EncError.lengthError "input_mask")
  else if segment_ids.length ≠ max_seq_length then
    Except.error (EncError.lengthError "segment_ids")
  else
    match resolveLabelId output_mode label_list ex.label with
    | Except.error e => Except.error e
    | Except.ok lid =>
        Except.ok ⟨input_ids, input_mask, segment_ids, lid⟩

/-- Lines 109-199: encode one example.  The two-text branch (lines 112-119)
reserves `specialTokensCountPair` slots and truncates the pair; the one-text
branch (lines 120-125) reserves `specialTokensCountSingle` slots and slices
`tokens_a`; both continue with `encodeTail`. -/
def encodeExample (tokenizer : Tokenizer) (cfg : Config) (label_list : List String)
    (max_seq_length : Nat) (output_mode : String) (ex : Example) :
    Except EncError InputFeatures :=
  let tokens_a := tokenizer.textToTokens ex.text_a
  let tokens_b : Option (List String) :=
    if strOptTruthy ex.text_b then some (tokenizer.textToTokens (ex.text_b.getD "")) else none
  match tokens_b with
  | some tb =>
      let budget : Int := (max_seq_length : Int) - specialTokensCountPair cfg
      match truncateSeqPair tokens_a tb budget with
      | none => Except.error EncError.truncationFailure
      | some (ta, tb) =>
          encodeTail tokenizer cfg label_list max_seq_length output_mode ex ta (some tb)
  | none =>
      let budget : Int := (max_seq_length : Int) - specialTokensCountSingle cfg
      let ta := if (tokens_a.length : Int) > budget then pySliceTo tokens_a budget else tokens_a
      encodeTail tokenizer cfg label_list max_seq_length output_mode ex ta none

/-- Lines 104-200: the batch loop, appending one record per example; any
exception raised while encoding an example propagates and the accumulated
list is discarded. -/
def convertExamplesToFeatures (tokenizer : Tokenizer) (cfg : Config)
    (label_list : List String) (max_seq_length : Nat) (output_mode : String) :
    List Example → Except EncError (List InputFeatures)
  | [] => Except.ok []
  | ex :: rest =>
      match encodeExample tokenizer cfg label_list max_seq_length output_mode ex with
      | Except.error e => Except.error e
      | Except.ok f =>
          match convertExamplesToFeatures tokenizer cfg label_list max_seq_length output_mode rest with
          | Except.error e => Except.error e
          | Except.ok fs => Except.ok (f :: fs)

/-! ## Concrete instances used by evaluations and witnesses -/

/-- A concrete tokenizer for evaluations: one token per character, id =
symbol length. -/
def testTokenizer : Tokenizer where
  textToTokens := fun s => s.data.map (fun c => String.mk [c])
  tokenToId := fun t => t.length

/-- A single-text example whose primary text tokenizes to 10 tokens. -/
def longSingleExample : Example where
  guid := "train-1"
  text_a := "abcdefghij"
  text_b := none
  label := "pos"

/-- A short single-text example that encodes successfully at length 8. -/
def shortExample : Example where
  guid := "train-0"
  text_a := "ab"
  text_b := none
  label := "pos"

/-! ## Lemmas about `_truncate_seq_pair` -/

lemma truncAux_spec {α : Type} :
    ∀ (fuel : Nat) (a b : List α) (n : Nat), a.length + b.length ≤ fuel →
      ∃ p : List α × List α, truncAux fuel a b (n : Int) = some p ∧
        (∃ i, p.1 = a.take i) ∧ (∃ j, p.2 = b.take j) ∧
        p.1.length + p.2.length = min (a.length + b.length) n := by
  intro fuel
  induction fuel with
  | zero =>
      intro a b n h
      have ha : a = [] := List.eq_nil_of_length_eq_zero (by omega)
      have hb : b = [] := List.eq_nil_of_length_eq_zero (by omega)
      subst ha; subst hb
      refine ⟨([], []), ?_, ⟨0, rfl⟩, ⟨0, rfl⟩, by simp⟩
      simp only [truncAux, List.length_nil]
      rw [if_pos (by exact_mod_cast Nat.zero_le n)]
  | succ fuel ih =>
      intro a b n h
      by_cases hle : ((a.length + b.length : Nat) : Int) ≤ (n : Int)
      · have hle' : a.length + b.length ≤ n := by exact_mod_cast hle
        refine ⟨(a, b), ?_, ⟨a.length, (List.take_length a).symm⟩,
          ⟨b.length, (List.take_length b).symm⟩, (Nat.min_eq_left hle').symm⟩
        simp only [truncAux]
        rw [if_pos hle]
      · have hgt : n < a.length + b.length := by
          have := lt_of_not_le hle
          exact_mod_cast this
        by_cases hab : b.length < a.length
        · have hlen : a.dropLast.length + b.length ≤ fuel := by
            rw [List.length_dropLast]; omega
          obtain ⟨p, hp, ⟨i, hi⟩, hj, hmin⟩ := ih a.dropLast b n hlen
          refine ⟨p, ?_, ⟨min i (a.length - 1), ?_⟩, hj, ?_⟩
          · simp only [truncAux]
            rw [if_neg hle, if_pos hab]
            exact hp
          · rw [hi, List.dropLast_eq_take, List.take_take]
          · rw [hmin, List.length_dropLast]
            omega
        · have hbne : 0 < b.length := by omega
          have hlen : a.length + b.dropLast.length ≤ fuel := by
            rw [List.length_dropLast]; omega
          obtain ⟨p, hp, hi, ⟨j, hj⟩, hmin⟩ := ih a b.dropLast n hlen
          refine ⟨p, ?_, hi, ⟨min j (b.length - 1), ?_⟩, ?_⟩
          · simp only [truncAux]
            rw [if_neg hle, if_neg hab]
            exact hp
          · rw [hj, List.dropLast_eq_take, List.take_take]
          · rw [hmin, List.length_dropLast]
            omega

lemma truncateSeqPair_spec {α : Type} (a b : List α) (n : Nat) :
    ∃ p : List α × List α, truncateSeqPair a b (n : Int) = some p ∧
      (∃ i, p.1 = a.take i) ∧ (∃ j, p.2 = b.take j) ∧
      p.1.length + p.2.length = min (a.length + b.length) n :=
  truncAux_spec (a.length + b.length) a b n le_rfl

/-! ## Claim theorems -/

/-- C3: for every pair of token sequences and every (nonnegative) budget the
pair-truncation step succeeds, each result is a prefix of its input, and the
total length ends up within the budget; in particular, for lengths 10 and 3
with budget 8, `tokens_b` is unchanged and `tokens_a` is trimmed to
`budget - 3 = 5`, and on ties the drop comes from `tokens_b` (witnessed by
the 2/2 lists with budget 3). -/
theorem truncate_pair_spec :
    (∀ (α : Type) (a b : List α) (n : Nat),
      ∃ p : List α × List α, truncateSeqPair a b (n : Int) = some p ∧
        (∃ i, p.1 = a.take i) ∧ (∃ j, p.2 = b.take j) ∧
        p.1.length + p.2.length ≤ n) ∧
    truncateSeqPair (List.range 10) (List.range 3) (8 : Int)
      = some (List.range 5, List.range 3) ∧
    truncateSeqPair ([0, 1] : List Nat) [2, 3] (3 : Int) = some ([0, 1], [2]) := by
  refine ⟨?_, by decide, by decide⟩
  intro α a b n
  obtain ⟨p, hp, hi, hj, hmin⟩ := truncateSeqPair_spec a b n
  exact ⟨p, hp, hi, hj, by omega⟩

/-- C9: for every nonnegative budget the truncation loop terminates
successfully after exactly `max 0 (lenA + lenB - budget)` removals (stated
with truncated natural subtraction, which is that maximum), leaving total
length `min (lenA + lenB) budget`; for a negative budget both sequences can
be exhausted and the loop ends in the pop-from-empty failure. -/
theorem truncate_pair_termination :
    (∀ (α : Type) (a b : List α) (n : Nat),
      ∃ p : List α × List α, truncateSeqPair a b (n : Int) = some p ∧
        p.1.length + p.2.length = min (a.length + b.length) n ∧
        (a.length + b.length) - (p.1.length + p.2.length)
          = (a.length + b.length) - n) ∧
    truncateSeqPair ([0] : List Nat) [1] (-1 : Int) = none := by
  refine ⟨?_, by decide⟩
  intro α a b n
  obtain ⟨p, hp, _, _, hmin⟩ := truncateSeqPair_spec a b n
  exact ⟨p, hp, hmin, by omega⟩

/-- C1: the claimed for-all-inputs length invariant is violated by the code:
with the default configuration (`eos_token='[SEP]'`, `cls_token='[CLS]'`,
`bos_token=None`, `sep_token_extra=None`) and `max_seq_length = 8`, a
single-text example of 10 tokens is truncated to `8 - 1 = 7` tokens (the
one-text reserved count ignores `cls_token`), assembled to 9 tokens, and the
step-8 validation raises `ValueError` on `input_ids`. -/
theorem glue_length_invariant_violation :
    encodeExample testTokenizer defaultConfig ["neg", "pos"] 8 "classification"
        longSingleExample
      = Except.error (EncError.lengthError "input_ids") := by
  rfl

/-- C2 counterexample: at the default configuration with one text present,
the code computes a reserved count of 1 (`eos` only), while the claimed
formula (+1 eos, +1 cls, no sep in the one-text case) gives 2. -/
theorem reserved_count_claim_counterexample :
    specialTokensCountSingle defaultConfig = 1 ∧
    claimedReserved defaultConfig false = 2 ∧
    specialTokensCountSingle defaultConfig ≠ claimedReserved defaultConfig false := by
  exact ⟨rfl, rfl, by decide⟩

/-- C2 amended: the two-text reserved count matches the claimed formula, but
the one-text count differs from it in exactly two terms: it does include a
`sep_token_extra` slot and does not include a `cls_token` slot (stated
additively to avoid truncated subtraction). -/
theorem reserved_count_formulas :
    ∀ cfg : Config,
      specialTokensCountPair cfg = claimedReserved cfg true ∧
      specialTokensCountSingle cfg + (if cfg.cls_token.isSome then 1 else 0)
        = claimedReserved cfg false + (if cfg.sep_token_extra.isSome then 1 else 0) := by
  intro cfg
  rcases cfg with ⟨bos, eos, pad, cls, sep, ae, cs, ps, pol, mz, sa, sb⟩
  cases bos <;> cases eos <;> cases cls <;> cases sep <;>
    simp [specialTokensCountPair, specialTokensCountSingle, claimedReserved]

/-! ## Lemmas about the label map -/

lemma labelMapLookupAux_not_mem (s : String) :
    ∀ (labels : List String) (i : Nat) (acc : Option Nat), s ∉ labels →
      labelMapLookupAux i labels s acc = acc := by
  intro labels
  induction labels with
  | nil => intro i acc _; rfl
  | cons l ls ih =>
      intro i acc h
      have h1 : ¬(l = s) := fun he => h (by simp [he])
      have h2 : s ∉ ls := fun hm => h (List.mem_cons_of_mem l hm)
      simp only [labelMapLookupAux, if_neg h1]
      exact ih (i + 1) acc h2

lemma labelMapLookup_eq_none {s : String} {labels : List String}
    (h : s ∉ labels) : labelMapLookup labels s = none :=
  labelMapLookupAux_not_mem s labels 0 none h

lemma labelMapLookupAux_mem (s : String) :
    ∀ (labels : List String), labels.Nodup → s ∈ labels →
      ∀ (i : Nat) (acc : Option Nat),
        labelMapLookupAux i labels s acc = some (i + labels.indexOf s) := by
  intro labels
  induction labels with
  | nil => intro _ hmem; exact absurd hmem (List.not_mem_nil s)
  | cons l ls ih =>
      intro hnd hmem i acc
      obtain ⟨hl, hnd'⟩ := List.nodup_cons.mp hnd
      rcases List.mem_cons.mp hmem with hsl | hmem'
      · subst hsl
        have hnot : s ∉ ls := hl
        simp only [labelMapLookupAux]
        rw [labelMapLookupAux_not_mem s ls (i + 1) _ hnot, List.indexOf_cons_self]
        simp
      · have hne : ¬(l = s) := by
          intro he; subst he; exact hl hmem'
        simp only [labelMapLookupAux, if_neg hne]
        rw [ih hnd' hmem' (i + 1) acc]
        rw [List.indexOf_cons_ne ls (fun he => hne he)]
        congr 1
        omega

/-- C7: in classification mode, a label present in a duplicate-free label
vocabulary maps to its zero-based index in that vocabulary. -/
theorem classification_label_mapping :
    ∀ (labels : List String) (s : String), labels.Nodup → s ∈ labels →
      labelMapLookup labels s = some (labels.indexOf s) := by
  intro labels s h1 h2
  unfold labelMapLookup
  rw [labelMapLookupAux_mem s labels h1 h2 0 none]
  simp

/-- C7 witness: with vocabulary `["neg", "pos"]` the label `"pos"` receives
label id 1. -/
theorem classification_label_mapping_witness :
    (["neg", "pos"] : List String).Nodup ∧ "pos" ∈ (["neg", "pos"] : List String) ∧
    labelMapLookup ["neg", "pos"] "pos" = some 1 := by
  refine ⟨by decide, by decide, ?_⟩
  have h := classification_label_mapping ["neg", "pos"] "pos" (by decide) (by decide)
  rw [h]
  decide

/-- C8: in classification mode a label absent from the vocabulary yields the
key-lookup failure, and any output mode other than classification or
regression yields the unsupported-mode failure. -/
theorem label_error_handling :
    ∀ (mode : String) (labels : List String) (lbl : String),
      (mode = "classification" → lbl ∉ labels →
        resolveLabelId mode labels lbl = Except.error (EncError.unknownLabel lbl)) ∧
      (mode ≠ "classification" → mode ≠ "regression" →
        resolveLabelId mode labels lbl = Except.error (EncError.unsupportedMode mode)) := by
  intro mode labels lbl
  constructor
  · intro h1 h2
    subst h1
    simp [resolveLabelId, labelMapLookup_eq_none h2]
  · intro h1 h2
    simp [resolveLabelId, h1, h2]

/-- C8 witness: `"zzz"` is not in `["neg", "pos"]` and triggers the unknown
label failure; output mode `"ranking"` triggers the unsupported-mode
failure. -/
theorem label_error_handling_witness :
    ("zzz" ∉ (["neg", "pos"] : List String)) ∧
    resolveLabelId "classification" ["neg", "pos"] "zzz"
      = Except.error (EncError.unknownLabel "zzz") ∧
    resolveLabelId "ranking" ["neg", "pos"] "pos"
      = Except.error (EncError.unsupportedMode "ranking") :=
  ⟨by decide,
   (label_error_handling "classification" ["neg", "pos"] "zzz").1 rfl (by decide),
   (label_error_handling "ranking" ["neg", "pos"] "pos").2 (by decide) (by decide)⟩

/-- C10: if any example of the batch fails to encode, the failure propagates
out of `convertExamplesToFeatures` (modelled as an `Except.error` result, so
no partial feature list is returned). -/
theorem batch_all_or_nothing :
    ∀ (tokenizer : Tokenizer) (cfg : Config) (labels : List String) (L : Nat)
      (mode : String) (examples : List Example) (ex : Example) (e : EncError),
      ex ∈ examples →
      encodeExample tokenizer cfg labels L mode ex = Except.error e →
      ∃ e', convertExamplesToFeatures tokenizer cfg labels L mode examples
        = Except.error e' := by
  intro tokenizer cfg labels L mode examples
  induction examples with
  | nil => intro ex e h; exact absurd h (List.not_mem_nil ex)
  | cons x rest ih =>
      intro ex e hmem henc
      rcases List.mem_cons.mp hmem with h | h
      · subst h
        exact ⟨e, by simp [convertExamplesToFeatures, henc]⟩
      · rcases hx : encodeExample tokenizer cfg labels L mode x with e0 | f0
        · exact ⟨e0, by simp [convertExamplesToFeatures, hx]⟩
        · obtain ⟨e', h'⟩ := ih ex e h henc
          exact ⟨e', by simp [convertExamplesToFeatures, hx, h']⟩

/-- C10 witness: a two-example batch whose second example fails the length
validation produces an error result, not a partial feature list. -/
theorem batch_all_or_nothing_witness :
    longSingleExample ∈ [shortExample, longSingleExample] ∧
    ∃ e', convertExamplesToFeatures testTokenizer defaultConfig ["neg", "pos"] 8
      "classification" [shortExample, longSingleExample] = Except.error e' :=
  ⟨by decide,
   batch_all_or_nothing testTokenizer defaultConfig ["neg", "pos"] 8 "classification"
     [shortExample, longSingleExample] longSingleExample
     (EncError.lengthError "input_ids") (by decide) (by rfl)⟩

/-! ## Replicate bookkeeping for the assembly-order proof -/

lemma rep_merge {α : Type} (m n : Nat) (x : α) :
    List.replicate m x ++ List.replicate n x = List.replicate (m + n) x :=
  (List.replicate_add m n x).symm

lemma rep_merge' {α : Type} (m n : Nat) (x : α) (l : List α) :
    List.replicate m x ++ (List.replicate n x ++ l) = List.replicate (m + n) x ++ l := by
  rw [← List.append_assoc, rep_merge]

lemma rep_one {α : Type} (x : α) : [x] = List.replicate 1 x := rfl

/-- C5: the assembled token and segment sequences equal the concatenation
described by the spec — optional bos + tokens_a + optional eos (segment a);
then, only with a second nonempty token sequence, optional sep_token_extra
(segment a), optional bos, tokens_b and optional eos (all segment b); with
cls finally prepended, or appended under `cls_token_at_end`. -/
theorem assembly_order :
    ∀ (cfg : Config) (a : List String) (b : Option (List String)),
      assemble cfg a b = assembledSpec cfg a b := by
  intro cfg a b
  rcases cfg with ⟨bos, eos, pad, cls, sep, ae, cs, ps, pol, mz, sa, sb⟩
  rcases b with _ | (_ | ⟨bh, bt⟩) <;>
    cases bos <;> cases eos <;> cases sep <;> cases cls <;> cases ae <;>
    simp only [assemble, assembleBody, addCls, assembledSpec, optToList, listOptTruthy,
      Option.getD, Option.isSome, List.isEmpty, Bool.not_false, Bool.not_true,
      Bool.and_true, Bool.and_false, Bool.true_and, Bool.false_and,
      Bool.false_eq_true, eq_self_iff_true, if_true, if_false, true_and, and_true,
      List.replicate_zero, Nat.add_zero, Nat.zero_add,
      List.nil_append, List.append_nil, List.append_assoc,
      List.cons_append, List.singleton_append, List.length_append, List.length_cons,
      List.length_nil, List.length_replicate, rep_one, rep_merge, rep_merge',
      Prod.mk.injEq] <;>
    rfl

/-- C4: with `cls_token` configured, the assembled (pre-padding) token and
segment sequences start with the cls marker and `cls_token_segment_id` when
`cls_token_at_end` is false, and end with them when it is true. -/
theorem cls_placement :
    ∀ (cfg : Config) (a : List String) (b : Option (List String)) (c : String),
      cfg.cls_token = some c →
      ((cfg.cls_token_at_end = false →
          (assemble cfg a b).1.head? = some c ∧
          (assemble cfg a b).2.head? = some cfg.cls_token_segment_id) ∧
       (cfg.cls_token_at_end = true →
          (assemble cfg a b).1.getLast? = some c ∧
          (assemble cfg a b).2.getLast? = some cfg.cls_token_segment_id)) := by
  intro cfg a b c h
  unfold assemble addCls
  rw [h]
  constructor
  · intro he; rw [he]; simp
  · intro he; rw [he]; simp [List.getLast?_concat]

/-- C4 witness: cls placement at the default (front) configuration and at
the same configuration with `cls_token_at_end` set. -/
theorem cls_placement_witness :
    defaultConfig.cls_token = some "[CLS]" ∧
    defaultConfig.cls_token_at_end = false ∧
    (assemble defaultConfig ["x"] none).1.head? = some "[CLS]" ∧
    (assemble defaultConfig ["x"] none).2.head?
      = some defaultConfig.cls_token_segment_id ∧
    ({ defaultConfig with cls_token_at_end := true } : Config).cls_token_at_end = true ∧
    (assemble { defaultConfig with cls_token_at_end := true } ["x"] none).1.getLast?
      = some "[CLS]" ∧
    (assemble { defaultConfig with cls_token_at_end := true } ["x"] none).2.getLast?
      = some ({ defaultConfig with cls_token_at_end := true } : Config).cls_token_segment_id :=
  ⟨rfl, rfl,
   ((cls_placement defaultConfig ["x"] none "[CLS]" rfl).1 rfl).1,
   ((cls_placement defaultConfig ["x"] none "[CLS]" rfl).1 rfl).2,
   rfl,
   ((cls_placement { defaultConfig with cls_token_at_end := true } ["x"] none "[CLS]" rfl).2 rfl).1,
   ((cls_placement { defaultConfig with cls_token_at_end := true } ["x"] none "[CLS]" rfl).2 rfl).2⟩

/-- C6: when the assembled token count `n` fits within `L`, the padded mask
(real value repeated `n` times, then `L - n` padding values on the
configured side) contains exactly `n` real entries, `L - n` padding entries,
`n = L` minus the padding count, has total length `L`, and the real and
padding mask values differ. -/
theorem mask_correctness :
    ∀ (cfg : Config) (a : List String) (b : Option (List String)) (L : Nat),
      (assemble cfg a b).1.length ≤ L →
      realMaskVal cfg ≠ padMaskVal cfg ∧
      (padList cfg.pad_on_left (padMaskVal cfg) (L - (assemble cfg a b).1.length)
          (List.replicate (assemble cfg a b).1.length (realMaskVal cfg))).count
          (realMaskVal cfg)
        = (assemble cfg a b).1.length ∧
      (padList cfg.pad_on_left (padMaskVal cfg) (L - (assemble cfg a b).1.length)
          (List.replicate (assemble cfg a b).1.length (realMaskVal cfg))).count
          (padMaskVal cfg)
        = L - (assemble cfg a b).1.length ∧
      (assemble cfg a b).1.length = L - (L - (assemble cfg a b).1.length) ∧
      (padList cfg.pad_on_left (padMaskVal cfg) (L - (assemble cfg a b).1.length)
          (List.replicate (assemble cfg a b).1.length (realMaskVal cfg))).length = L := by
  intro cfg a b L h
  have hv : realMaskVal cfg ≠ padMaskVal cfg := by
    unfold realMaskVal padMaskVal
    cases cfg.mask_padding_with_zero <;> simp
  refine ⟨hv, ?_, ?_, by omega, ?_⟩ <;>
    unfold padList <;>
    cases cfg.pad_on_left <;>
    simp [List.count_append, List.count_replicate, hv, Ne.symm hv, List.length_append] <;>
    omega

/-- C6 witness: the mask property at the default configuration, one text of
one token plus a one-token second text, and `L = 8`. -/
theorem mask_correctness_witness :
    (assemble defaultConfig ["x"] (some ["y"])).1.length ≤ 8 ∧
    (realMaskVal defaultConfig ≠ padMaskVal defaultConfig ∧
      (padList defaultConfig.pad_on_left (padMaskVal defaultConfig)
          (8 - (assemble defaultConfig ["x"] (some ["y"])).1.length)
          (List.replicate (assemble defaultConfig ["x"] (some ["y"])).1.length
            (realMaskVal defaultConfig))).count (realMaskVal defaultConfig)
        = (assemble defaultConfig ["x"] (some ["y"])).1.length ∧
      (padList defaultConfig.pad_on_left (padMaskVal defaultConfig)
          (8 - (assemble defaultConfig ["x"] (some ["y"])).1.length)
          (List.replicate (assemble defaultConfig ["x"] (some ["y"])).1.length
            (realMaskVal defaultConfig))).count (padMaskVal defaultConfig)
        = 8 - (assemble defaultConfig ["x"] (some ["y"])).1.length ∧
      (assemble defaultConfig ["x"] (some ["y"])).1.length
        = 8 - (8 - (assemble defaultConfig ["x"] (some ["y"])).1.length) ∧
      (padList defaultConfig.pad_on_left (padMaskVal defaultConfig)
          (8 - (assemble defaultConfig ["x"] (some ["y"])).1.length)
          (List.replicate (assemble defaultConfig ["x"] (some ["y"])).1.length
            (realMaskVal defaultConfig))).length = 8) :=
  ⟨by decide, mask_correctness defaultConfig ["x"] (some ["y"]) 8 (by decide)⟩

end GlueEncoding
